import Mathlib

/-!
Verification of the listing extraction and normalization pipeline of the
rightmove-average-house-prices repository, as a shallow embedding in Lean 4.

Conventions of the embedding:
* Python strings are Lean `String`; text operations (`strip`, `lower`,
  substring membership, the concrete regular expressions of the source)
  are modelled character-by-character on `List Char`.
* Python `None` / missing dict entries are `Option`.
* Python floats appearing in this pipeline are always exactly representable
  (whole-day ages, CLI thresholds, means of integers); they are modelled by `Rat`.
* Python exceptions (`ValueError` from `int(...)`, `requests.RequestException`)
  are modelled with `Except Unit`.
* `datetime.now()` is passed explicitly as a `Date` (the current calendar date);
  `(datetime.now() - datetime(y, m, d)).days` equals the difference of proleptic
  Gregorian ordinals because the subtrahend is at midnight.
-/

namespace Rightmove

/-- View of `Except` as a sum, to transport decidable equality. -/
def exceptToSum {ε α : Type} : Except ε α → Sum ε α
  | Except.error e => Sum.inl e
  | Except.ok a => Sum.inr a

instance {ε α : Type} [DecidableEq ε] [DecidableEq α] : DecidableEq (Except ε α) :=
  fun a b =>
    decidable_of_iff (exceptToSum a = exceptToSum b)
      (by cases a <;> cases b <;> simp [exceptToSum])

/-- Python `str.strip` on a character list: drop whitespace at both ends. -/
def stripList (l : List Char) : List Char :=
  ((l.dropWhile Char.isWhitespace).reverse.dropWhile Char.isWhitespace).reverse

/-- Python `str.strip`. -/
def pyStrip (s : String) : String := String.mk (stripList s.data)

/-- Python `str.lower` (ASCII letters, which is all the source compares). -/
def lower (s : String) : String := String.mk (s.data.map Char.toLower)

/-- Test whether `pat` begins the list `l`. -/
def isPre : List Char → List Char → Bool
  | [], _ => true
  | _ :: _, [] => false
  | a :: as, b :: bs => a == b && isPre as bs

/-- Test whether `pat` occurs as a contiguous sublist of `l`: Python `pat in l`. -/
def subMem (pat : List Char) : List Char → Bool
  | [] => isPre pat []
  | c :: t => isPre pat (c :: t) || subMem pat t

/-- Python substring test `pat in s`. -/
def containsStr (s pat : String) : Bool := subMem pat.data s.data

/-- Numeric value of a list of decimal digit characters. -/
def digitsVal (l : List Char) : Nat := l.foldl (fun n c => 10 * n + (c.toNat - 48)) 0

/-- Take exactly `n` leading decimal digits, returning them and the rest. -/
def grab (n : Nat) (cs : List Char) : Option (List Char × List Char) :=
  let ds := cs.take n
  if ds.length == n && ds.all Char.isDigit then some (ds, cs.drop n) else none

/-- One backtracking alternative of the regex `(\d{1,2})/(\d{1,2})/(\d{4})` at the
current position: a day of `dl` digits, a slash, a month of `ml` digits, a slash,
a four-digit year.  Returns `(day, month, year)`. -/
def tryDMY (cs : List Char) (dl ml : Nat) : Option (Nat × Nat × Nat) := do
  let (ds, r1) ← grab dl cs
  match r1 with
  | '/' :: r2 => do
    let (ms, r3) ← grab ml r2
    match r3 with
    | '/' :: r4 => do
      let (ys, _) ← grab 4 r4
      pure (digitsVal ds, digitsVal ms, digitsVal ys)
    | _ => none
  | _ => none

/-- The regex `(\d{1,2})/(\d{1,2})/(\d{4})` anchored at the current position,
with the greedy backtracking order of the engine: two-digit day first, then
within each day width the two-digit month first. -/
def matchDMYAt (cs : List Char) : Option (Nat × Nat × Nat) :=
  tryDMY cs 2 2 <|> tryDMY cs 2 1 <|> tryDMY cs 1 2 <|> tryDMY cs 1 1

/-- Model of `re.search` of `(\d{1,2})/(\d{1,2})/(\d{4})`: the leftmost position at which
the pattern matches. -/
def searchDMY : List Char → Option (Nat × Nat × Nat)
  | [] => none
  | c :: t => matchDMYAt (c :: t) <|> searchDMY t

/-- Gregorian leap-year rule, as in Python `datetime`. -/
def isLeap (y : Nat) : Bool := (y % 4 == 0 && y % 100 != 0) || y % 400 == 0

/-- Days in a month of the Gregorian calendar. -/
def daysInMonth (y m : Nat) : Nat :=
  if m == 2 then (if isLeap y then 29 else 28)
  else if m == 4 || m == 6 || m == 9 || m == 11 then 30
  else 31

/-- The triples `datetime(year, month, day)` accepts without raising `ValueError`. -/
def validDate (y m d : Nat) : Bool :=
  1 ≤ y && y ≤ 9999 && 1 ≤ m && m ≤ 12 && 1 ≤ d && d ≤ daysInMonth y m

/-- Days strictly before January 1 of year `y` in the proleptic Gregorian calendar. -/
def daysBeforeYear (y : Nat) : Nat :=
  365 * (y - 1) + (y - 1) / 4 - (y - 1) / 100 + (y - 1) / 400

/-- Days strictly before month `m` within year `y`. -/
def daysBeforeMonth (y m : Nat) : Nat :=
  (List.range (m - 1)).foldl (fun a i => a + daysInMonth y (i + 1)) 0

/-- Proleptic Gregorian ordinal of a date (Python `date.toordinal`). -/
def toOrdinal (y m d : Nat) : Nat := daysBeforeYear y + daysBeforeMonth y m + d

/-- A calendar date, used for the explicit `datetime.now()` parameter. -/
structure Date where
  y : Nat
  m : Nat
  d : Nat
deriving DecidableEq

/-- The body of `parse_listing_age` after lower-casing and stripping, from
`src/rightmove_listings_scraper_cli.py` lines 49-73: the `today` rule, then the
`yesterday` rule, then the `D/M/YYYY` regex with `datetime` validation
(`ValueError` caught to `None`), else `None`. -/
def normAge (now : Date) (s : String) : Option Rat :=
  if containsStr s "today" then some 0
  else if containsStr s "yesterday" then some 1
  else
    match searchDMY s.data with
    | some (d, m, y) =>
      if validDate y m d then
        some (((toOrdinal now.y now.m now.d : Int) - (toOrdinal y m d : Int) : Int) : Rat)
      else none
    | none => none

/-- Embedding of `parse_listing_age` from `src/rightmove_listings_scraper_cli.py` lines 36-73.
`if not date_listed` is true for `None` and for the empty string. -/
def parse_listing_age (now : Date) (date_listed : Option String) : Option Rat :=
  match date_listed with
  | none => none
  | some raw =>
    if raw = "" then none
    else normAge now (pyStrip (lower raw))

/-- One property record: the dict built by `_extract_card_data`, with one
`Option` per key (a missing or `None`-valued entry is `none`). -/
structure PropertyRecord where
  listing_url : Option String
  property_id : Option String
  address : Option String
  price : Option Nat
  bedrooms : Option Int
  bathrooms : Option Int
  property_type : Option String
  agent : Option String
  agent_contact : Option String
  date_listed : Option String
  description : Option String
  area_sqft : Option Nat
  leasehold : Option Bool
deriving DecidableEq

/-- A record with every field absent, used to build concrete examples. -/
def blankRec : PropertyRecord :=
  { listing_url := none, property_id := none, address := none, price := none,
    bedrooms := none, bathrooms := none, property_type := none, agent := none,
    agent_contact := none, date_listed := none, description := none,
    area_sqft := none, leasehold := none }

/-- The per-record keep condition of `filter_recent_listings` lines 315-326:
keep when the resolved age is `None`, or when it is at most the threshold. -/
def keepRecent (now : Date) (maxAge : Rat) (r : PropertyRecord) : Bool :=
  match parse_listing_age now r.date_listed with
  | none => true
  | some a => a ≤ maxAge

/-- Embedding of `filter_recent_listings` from `src/rightmove_listings_scraper_cli.py`
lines 297-329: `None` threshold returns the input unchanged, otherwise the
records passing `keepRecent` are appended in input order. -/
def filter_recent_listings (now : Date) (properties : List PropertyRecord)
    (max_age_days : Option Rat) : List PropertyRecord :=
  match max_age_days with
  | none => properties
  | some m => properties.filter (keepRecent now m)

/-- Model of pandas `df.drop_duplicates(subset=[keys], keep=last)`: a row is kept
exactly when no later row has the same key, in original order.  pandas treats
`NaN` keys (rows whose `property_id` column is empty) as equal to each other,
which `Option.decEq` mirrors with `none = none`. -/
def dropDupLast : List PropertyRecord → List PropertyRecord
  | [] => []
  | r :: rs =>
    if rs.any (fun x => x.property_id == r.property_id) then dropDupLast rs
    else r :: dropDupLast rs

/-- Embedding of `deduplicate_csv` from `src/rightmove_listings_scraper_cli.py` lines
371-413, applied to the rows the CSV holds after an append: the existing rows
followed by the incoming rows, deduplicated on `property_id` keeping the last
occurrence. -/
def deduplicate_csv (existing incoming : List PropertyRecord) : List PropertyRecord :=
  dropDupLast (existing ++ incoming)

/-- A digit or a comma: the character class `[\d,]` of the price regex. -/
def isDC (c : Char) : Bool := c.isDigit || c == ','

/-- Model of `re.search` of `£([\d,]+)`: scan for a pound sign followed by at least one
digit-or-comma; the group is the maximal such run.  A pound sign followed by
none resumes the scan at the next character, as the engine does. -/
def priceRunSearch : List Char → Option (List Char)
  | [] => none
  | '£' :: rest =>
    let run := rest.takeWhile isDC
    if run.isEmpty then priceRunSearch rest else some run
  | _ :: rest => priceRunSearch rest

/-- The price parse shared by `_extract_card_data` lines 177-183 and
`extract_prices_new_structure` in `src/main.py`: strip the text, search for
`£([\d,]+)`, drop the commas of the group and parse with `int`.  A group with
no digit leaves `int` the empty string, which raises `ValueError`
(`Except.error`); no match is `None`. -/
def parsePriceField (t : String) : Except Unit (Option Nat) :=
  match priceRunSearch (pyStrip t).data with
  | none => Except.ok none
  | some run =>
    let ds := run.filter Char.isDigit
    if ds.isEmpty then Except.error () else Except.ok (some (digitsVal ds))

/-- Python `int(s)` on text: after stripping, an optional sign followed by at
least one digit; anything else raises `ValueError` (`none` here). -/
def pyInt? (s : String) : Option Int :=
  match (pyStrip s).data with
  | [] => none
  | '-' :: ds => if !ds.isEmpty && ds.all Char.isDigit then some (-(digitsVal ds : Int)) else none
  | '+' :: ds => if !ds.isEmpty && ds.all Char.isDigit then some ((digitsVal ds : Int)) else none
  | ds => if ds.all Char.isDigit then some ((digitsVal ds : Int)) else none

/-- Model of `re.search` of `/properties/(\d+)` on the href: the leftmost occurrence of
the literal followed by at least one digit; the group is the maximal digit run. -/
def propIdSearch : List Char → Option (List Char)
  | [] => none
  | c :: rest =>
    if isPre "/properties/".data (c :: rest) then
      let run := ((c :: rest).drop 12).takeWhile Char.isDigit
      if run.isEmpty then propIdSearch rest else some run
    else propIdSearch rest

/-- A digit or whitespace: the character class `[\d\s]` of the phone regex. -/
def isDS (c : Char) : Bool := c.isDigit || c.isWhitespace

/-- The largest index `i ≥ 1` of `run` holding a digit, if any: where the
greedy `[\d\s]+` of `(\d[\d\s]+\d)` ends up placing the final digit. -/
def lastGoodIdx (run : List Char) : Option Nat :=
  ((List.range run.length).filter
    (fun i => decide (1 ≤ i) && (run.getD i ' ').isDigit)).getLast?

/-- Model of `re.search` of `(\d[\d\s]+\d)`: at the leftmost digit, take the maximal
digit-or-whitespace run after it; the match ends at the last digit of that run
at offset at least one, and the scan moves on when there is none. -/
def phoneSearch : List Char → Option (List Char)
  | [] => none
  | c :: rest =>
    if c.isDigit then
      let run := rest.takeWhile isDS
      match lastGoodIdx run with
      | some i => some (c :: run.take (i + 1))
      | none => phoneSearch rest
    else phoneSearch rest

/-- Lines 207-214: the phone regex group stripped when it matches, otherwise
the first line of the (already stripped) link text, stripped. -/
def parsePhone (t : String) : String :=
  match phoneSearch t.data with
  | some m => pyStrip (String.mk m)
  | none => pyStrip (String.mk (t.data.takeWhile (fun c => c != '\n')))

/-- One listing card, as the sub-elements and attributes `_extract_card_data`
queries from the soup.  Each field is the `.text` (or attribute value) of the
corresponding element, `none` when the element is not found; `bathContainer`
is two-level because the span is looked up inside the container. -/
structure Card where
  href : Option String
  addressText : Option String
  priceText : Option String
  bedroomsText : Option String
  bathContainer : Option (Option String)
  propertyTypeText : Option String
  agentTitle : Option String
  phoneText : Option String
  dateText : Option String
  descText : Option String
deriving DecidableEq

def BASE_URL : String := "https://www.rightmove.co.uk"

/-- Model of `int(elem.text.strip())` on an optional element: absent element is `None`,
non-numeric text raises. -/
def fieldInt (o : Option String) : Except Unit (Option Int) :=
  match o with
  | none => Except.ok none
  | some t =>
    match pyInt? t with
    | some n => Except.ok (some n)
    | none => Except.error ()

/-- The optional price element parse of lines 177-183. -/
def fieldPrice (o : Option String) : Except Unit (Option Nat) :=
  match o with
  | none => Except.ok none
  | some t => parsePriceField t

/-- The bath span text: present only when both container and span are found. -/
def bathText (b : Option (Option String)) : Option String :=
  match b with
  | some (some t) => some t
  | _ => none

/-- The body of `_extract_card_data` (lines 159-228) before the enclosing
`except Exception`: `None` for a card without a usable detail link, an error
when a field extraction raises, otherwise the record. -/
def extractBody (c : Card) : Except Unit (Option PropertyRecord) :=
  match c.href with
  | none => Except.ok none
  | some h =>
    if h = "" then Except.ok none
    else
      (fieldPrice c.priceText).bind fun price =>
      (fieldInt c.bedroomsText).bind fun bedrooms =>
      (fieldInt (bathText c.bathContainer)).bind fun bathrooms =>
      Except.ok (some
        { listing_url := some (BASE_URL ++ h)
          property_id := (propIdSearch h.data).map (fun l => String.mk l)
          address := c.addressText.map pyStrip
          price := price
          bedrooms := bedrooms
          bathrooms := bathrooms
          property_type := c.propertyTypeText.map pyStrip
          agent := c.agentTitle.map pyStrip
          agent_contact := c.phoneText.map (fun t => parsePhone (pyStrip t))
          date_listed := c.dateText.map pyStrip
          description := c.descText.map pyStrip
          area_sqft := none
          leasehold := none })

/-- Embedding of `_extract_card_data` from `src/rightmove_listings_scraper_cli.py` lines
149-232: the whole body runs under one `try`, so any raised `ValueError`
makes the whole card `None`. -/
def extract_card_data (c : Card) : Option PropertyRecord :=
  match extractBody c with
  | Except.ok r => r
  | Except.error _ => none

/-- Whether some field extraction of the card raises: a matched price group
with no digit, or non-numeric bedrooms or bathrooms text. -/
def isErr {α : Type} (e : Except Unit α) : Bool :=
  match e with
  | Except.error _ => true
  | Except.ok _ => false

def cardThrows (c : Card) : Bool :=
  isErr (fieldPrice c.priceText) || isErr (fieldInt c.bedroomsText) ||
    isErr (fieldInt (bathText c.bathContainer))

/-- Tail of the area regex `([\d,]+)\s*sq\.?\s*ft` (IGNORECASE) after the
digit-comma group: optional whitespace, `sq`, an optional dot, optional
whitespace, `ft`.  Greedy `\s*` and `\.?` are deterministic here because a
shorter take leaves a character the next literal cannot match. -/
def matchSqFtTail (cs : List Char) : Bool :=
  match cs.dropWhile Char.isWhitespace with
  | s :: q :: rest =>
    if s.toLower == 's' && q.toLower == 'q' then
      let rest1 := match rest with
        | '.' :: r => r
        | r => r
      match rest1.dropWhile Char.isWhitespace with
      | f :: t :: _ => f.toLower == 'f' && t.toLower == 't'
      | _ => false
    else false
  | _ => false

/-- Model of `re.search` of `([\d,]+)\s*sq\.?\s*ft` with IGNORECASE: at each position
starting with a digit or comma, the group is the maximal digit-comma run and
the tail must follow; otherwise the scan advances one character. -/
def areaSearch : List Char → Option (List Char)
  | [] => none
  | c :: rest =>
    if isDC c then
      let run := (c :: rest).takeWhile isDC
      if matchSqFtTail ((c :: rest).drop run.length) then some run
      else areaSearch rest
    else areaSearch rest

/-- Lines 266-275 of `enrich_property_details`: the stripped size text matched
against the area regex; `int` of the de-commaed group, which raises when the
group holds no digit. -/
def parseAreaField (t : String) : Except Unit (Option Nat) :=
  match areaSearch (pyStrip t).data with
  | none => Except.ok none
  | some run =>
    let ds := run.filter Char.isDigit
    if ds.isEmpty then Except.error () else Except.ok (some (digitsVal ds))

/-- One fetched detail page, as the elements `enrich_property_details`
queries: the size paragraph text (present when both the size span and its
inner paragraph are found) and the text of the first paragraph matching
`(leasehold|freehold)` (IGNORECASE). -/
structure Detail where
  sizeText : Option String
  tenureText : Option String
deriving DecidableEq

/-- Enrichment of a single record, `src/rightmove_listings_scraper_cli.py`
lines 252-292: skip records without a truthy `listing_url`; a failed fetch
leaves the record unchanged; an extracted area is assigned to `area_sqft`
unconditionally, and a raised `ValueError` in the area parse is caught by the
per-record `except`, skipping the tenure step; an extracted tenure paragraph
assigns `leasehold` unconditionally. -/
def enrichOne (fetch : String → Except Unit Detail) (r : PropertyRecord) : PropertyRecord :=
  match r.listing_url with
  | none => r
  | some u =>
    if u = "" then r
    else
      match fetch u with
      | Except.error _ => r
      | Except.ok dd =>
        let step1 : Except Unit PropertyRecord :=
          match dd.sizeText with
          | none => Except.ok r
          | some t =>
            match parseAreaField t with
            | Except.error _ => Except.error ()
            | Except.ok none => Except.ok r
            | Except.ok (some n) => Except.ok { r with area_sqft := some n }
        match step1 with
        | Except.error _ => r
        | Except.ok r1 =>
          match dd.tenureText with
          | none => r1
          | some t => { r1 with leasehold := some (containsStr (lower (pyStrip t)) "leasehold") }

/-- Embedding of `enrich_property_details` from lines 234-294: identity when
`fetch_details` is off, per-record enrichment otherwise. -/
def enrich_property_details (fetch : String → Except Unit Detail)
    (properties : List PropertyRecord) (fetch_details : Bool) : List PropertyRecord :=
  if fetch_details then properties.map (enrichOne fetch) else properties

/-- The pagination loop of `search_properties` (lines 109-144), with the page
fetch abstracted to the list of property cards the soup yields (`Except.error`
for a `requests.RequestException`).  The fuel argument is the number of loop
iterations `range(max_pages)` still allows; alongside the records the visited
page indices are returned. -/
def searchFrom (fetch : Nat → Except Unit (List Card)) :
    Nat → Nat → List PropertyRecord × List Nat
  | 0, _ => ([], [])
  | fuel + 1, page =>
    match fetch page with
    | Except.error _ => ([], [page])
    | Except.ok cards =>
      if cards.isEmpty then ([], [page])
      else
        let rest := searchFrom fetch fuel (page + 1)
        (cards.filterMap extract_card_data ++ rest.1, page :: rest.2)

/-- Embedding of `search_properties` from `src/rightmove_listings_scraper_cli.py` lines
96-147: pages `0, 1, ...` while the index is below `max_pages`; a fetch error
or a page with no cards stops the loop, keeping the records accumulated so
far. -/
def search_properties (fetch : Nat → Except Unit (List Card)) (max_pages : Nat) :
    List PropertyRecord × List Nat :=
  searchFrom fetch max_pages 0

/-- The persisted CSV file: whether it exists, and its lines. -/
structure CsvFile where
  present : Bool
  lines : List String
deriving DecidableEq

def HEADER : String :=
  "property_id,address,description,bedrooms,bathrooms,property_type,area_sqft,leasehold,price,agent,agent_contact,date_listed,listing_url"

/-- The lines the file starts from once `open(output_file, mode)` ran: mode
`w` truncates, mode `a` keeps the old lines. -/
def saveBase (file : CsvFile) (append : Bool) : List String :=
  if append then file.lines else []

/-- The lines `save_to_csv` then writes one by one: the header when
overwriting or when the file did not exist, then one line per record. -/
def saveWrites (file : CsvFile) (append : Bool) (rows : List String) : List String :=
  (if append = false || file.present = false then [HEADER] else []) ++ rows

/-- The file contents observable at each point of `save_to_csv` (lines
350-368) under the standard in-place file model: Python `open` in mode `w`
truncates at once and each `writer` call appends one line, so an `IOError`
after `k` writes leaves `saveBase ++ (saveWrites).take k` on disk.  An empty
record batch returns before opening, leaving the file untouched. -/
def save_states (file : CsvFile) (append : Bool) (rows : List String) : List (List String) :=
  if rows.isEmpty then [file.lines]
  else
    (List.range ((saveWrites file append rows).length + 1)).map
      (fun k => saveBase file append ++ (saveWrites file append rows).take k)

/-- The file contents after a fully successful `save_to_csv`. -/
def save_final (file : CsvFile) (append : Bool) (rows : List String) : List String :=
  if rows.isEmpty then file.lines else saveBase file append ++ saveWrites file append rows

/-- One search-results page of `src/main.py`, as the three strategy element
lists `extract_prices_new_structure` queries: texts of divs with the exact
price class, texts of price divs inside `data-testid` anchors, and texts of
divs whose class matches the `PropertyPrice_price__` pattern. -/
structure PriceDoc where
  method1Texts : List String
  method2Texts : List String
  method3Texts : List String
deriving DecidableEq

/-- One strategy pass: each element text is stripped and matched against
`£([\d,]+)`; matches are parsed with `int` (which can raise) and appended,
non-matches are skipped. -/
def pricesFromTexts : List String → Except Unit (List Nat)
  | [] => Except.ok []
  | t :: rest =>
    (parsePriceField t).bind fun p =>
    (pricesFromTexts rest).bind fun ps =>
    Except.ok (match p with
      | some v => v :: ps
      | none => ps)

/-- Embedding of `extract_prices_new_structure` from `src/main.py` lines 27-71: the three
strategies in order, each only when all previous ones yielded no price. -/
def extract_prices_new_structure (d : PriceDoc) : Except Unit (List Nat) :=
  (pricesFromTexts d.method1Texts).bind fun p1 =>
  if !p1.isEmpty then Except.ok p1
  else
    (pricesFromTexts d.method2Texts).bind fun p2 =>
    if !p2.isEmpty then Except.ok p2
    else pricesFromTexts d.method3Texts

/-- Python `statistics.mean` of a list of integer prices, exactly. -/
def pymean (l : List Nat) : Rat := ((l.foldl (fun a b => a + b) 0 : Nat) : Rat) / (l.length : Rat)

/-- The page loop of `get_avg_price` (`src/main.py` lines 119-154), with the
HTTP fetch abstracted to `none` for a non-200 status and `some doc` for a
parsed page.  The `if page == 0:` branch of the source (lines 132-154) guards
the parsing, the empty-page break and the accumulation, so pages past the
first only fetch.  Returns the accumulated prices and the visited pages;
`Except.error` models an uncaught `ValueError` escaping the price parser. -/
def avgLoop (fetch : Nat → Option PriceDoc) :
    Nat → Nat → List Nat → Except Unit (List Nat × List Nat)
  | 0, _, acc => Except.ok (acc, [])
  | fuel + 1, page, acc =>
    match fetch page with
    | none => Except.ok (acc, [page])
    | some doc =>
      if page = 0 then
        (extract_prices_new_structure doc).bind fun ps =>
        if ps.isEmpty then Except.ok (acc, [page])
        else
          (avgLoop fetch fuel (page + 1) (acc ++ ps)).bind fun r =>
          Except.ok (r.1, page :: r.2)
      else
        (avgLoop fetch fuel (page + 1) acc).bind fun r =>
        Except.ok (r.1, page :: r.2)

/-- Embedding of `get_avg_price` from `src/main.py` lines 74-162: run the page loop from
page 0, then return `(mean, count)` of the accumulated prices, or
`(None, 0)` when none were found.  The visited page indices are carried
alongside. -/
def get_avg_price (fetch : Nat → Option PriceDoc) (max_pages : Nat) :
    Except Unit ((Option Rat × Nat) × List Nat) :=
  (avgLoop fetch max_pages 0 []).bind fun r =>
  if r.1.isEmpty then Except.ok ((none, 0), r.2)
  else Except.ok ((some (pymean r.1), r.1.length), r.2)

/-! Concrete inputs used by the claim theorems, their witnesses and
counterexamples. -/

/-- A card with every sub-element present. -/
def fullCard : Card :=
  { href := some "/properties/123456", addressText := some " 1 Main Street ",
    priceText := some "£350,000", bedroomsText := some "3",
    bathContainer := some (some "2"), propertyTypeText := some "Flat",
    agentTitle := some "Acme Estates ", phoneText := some "020 7946 0123",
    dateText := some "Added on 05/01/2025", descText := some "Nice flat" }

/-- The record `fullCard` extracts to. -/
def fullRec : PropertyRecord :=
  { listing_url := some "https://www.rightmove.co.uk/properties/123456",
    property_id := some "123456", address := some "1 Main Street",
    price := some 350000, bedrooms := some 3, bathrooms := some 2,
    property_type := some "Flat", agent := some "Acme Estates",
    agent_contact := some "020 7946 0123", date_listed := some "Added on 05/01/2025",
    description := some "Nice flat", area_sqft := none, leasehold := none }

/-- A minimal card: a detail link and nothing else. -/
def bareCard (h : String) : Card :=
  { href := some h, addressText := none, priceText := none,
    bedroomsText := none, bathContainer := none, propertyTypeText := none,
    agentTitle := none, phoneText := none, dateText := none, descText := none }

/-- The record `bareCard "/properties/11"` extracts to. -/
def rec11 : PropertyRecord :=
  { blankRec with
    listing_url := some "https://www.rightmove.co.uk/properties/11",
    property_id := some "11" }

/-- The record `bareCard "/properties/22"` extracts to. -/
def rec22 : PropertyRecord :=
  { blankRec with
    listing_url := some "https://www.rightmove.co.uk/properties/22",
    property_id := some "22" }

/-- A fetcher whose pages 1 and 2 (0-based 0 and 1) carry one card each, whose
page 3 (0-based 2) carries zero cards, and whose later pages carry cards again. -/
def fetchEmptyPage3 : Nat → Except Unit (List Card) := fun p =>
  if p = 0 then Except.ok [bareCard "/properties/11"]
  else if p = 1 then Except.ok [bareCard "/properties/22"]
  else if p = 2 then Except.ok []
  else Except.ok [bareCard "/properties/11"]

/-- A fetcher failing from page 2 (0-based 1) on. -/
def fetchErrPage2 : Nat → Except Unit (List Card) := fun p =>
  if p = 0 then Except.ok [bareCard "/properties/11"] else Except.error ()

/-- Records used by the filter example: ages 0, 1, unknown and 2 as of
2025-01-10. -/
def recToday : PropertyRecord := { blankRec with date_listed := some "Added today" }

def recYesterday : PropertyRecord := { blankRec with date_listed := some "Added yesterday" }

def recUnknown : PropertyRecord := { blankRec with date_listed := some "coming soon" }

def recOld : PropertyRecord := { blankRec with date_listed := some "Added on 08/01/2025" }

/-- Two records with an absent `property_id` and different prices. -/
def recNoId1 : PropertyRecord := { blankRec with price := some 100 }

def recNoId2 : PropertyRecord := { blankRec with price := some 200 }

/-- The records of the deduplication example of the spec. -/
def recId1a : PropertyRecord := { blankRec with property_id := some "1", price := some 100 }

def recId1b : PropertyRecord := { blankRec with property_id := some "1", price := some 200 }

def recId2 : PropertyRecord := { blankRec with property_id := some "2", price := some 300 }

/-- A record that enters enrichment with `area_sqft` already populated. -/
def recArea500 : PropertyRecord :=
  { blankRec with listing_url := some "https://www.rightmove.co.uk/properties/7", area_sqft := some 500 }

/-- A detail fetch returning a page with a 726 sq ft size paragraph. -/
def fetch726 : String → Except Unit Detail := fun _ => Except.ok ⟨some "726 sq ft", none⟩

/-- A record that enters enrichment with both `area_sqft` and `leasehold`
already populated. -/
def recAreaTenure : PropertyRecord :=
  { blankRec with
    listing_url := some "https://www.rightmove.co.uk/properties/7",
    area_sqft := some 500, leasehold := some true }

/-- A detail fetch returning a page with both a size paragraph and a tenure
paragraph (a freehold one, so the derived `leasehold` value is `false`). -/
def fetchBoth : String → Except Unit Detail :=
  fun _ => Except.ok ⟨some "726 sq ft", some "Tenure: Freehold"⟩

/-- A detail fetch that always fails. -/
def fetchFail : String → Except Unit Detail := fun _ => Except.error ()

/-- A persisted file holding a header and one old row. -/
def oldFile : CsvFile := ⟨true, [HEADER, "oldrow"]⟩

/-- The first-page document of the `get_avg_price` example: two prices. -/
def docTwoPrices : PriceDoc := ⟨["£100", "£200"], [], []⟩

/-- A fetcher whose first page is `docTwoPrices` and whose later pages carry a
price that must not be counted. -/
def fetchPrices : Nat → Option PriceDoc := fun p =>
  if p = 0 then some docTwoPrices else some ⟨["£999"], [], []⟩

/-! Helper lemmas. -/

theorem getLast?_cons_of_ne_nil {α : Type} (a : α) {l : List α} (h : l ≠ []) :
    (a :: l).getLast? = l.getLast? := by
  cases l with
  | nil => exact absurd rfl h
  | cons b t => exact List.getLast?_cons_cons

/-! Claim theorems. -/

/-- C2: the Listing-Age Resolver maps absent input to absent; an input whose
lower-cased trimmed text contains "today" to 0.0; failing that, one containing
"yesterday" to 1.0; failing those, one matching the 1-2-digit-day /
1-2-digit-month / 4-digit-year pattern to (current date minus the parsed
day-month-year date) in whole days, with an invalid calendar date (day 32)
giving absent instead of an error; any other input to absent.  In particular
"Added on 05/01/2025" on 2025-01-10 gives 5.0. -/
theorem C2_parse_listing_age_rules (now : Date) :
    parse_listing_age now none = none ∧
    (∀ s : String, s ≠ "" → containsStr (pyStrip (lower s)) "today" = true →
      parse_listing_age now (some s) = some 0) ∧
    (∀ s : String, s ≠ "" → containsStr (pyStrip (lower s)) "today" = false →
      containsStr (pyStrip (lower s)) "yesterday" = true →
      parse_listing_age now (some s) = some 1) ∧
    (∀ s : String, ∀ d m y : Nat, s ≠ "" →
      containsStr (pyStrip (lower s)) "today" = false →
      containsStr (pyStrip (lower s)) "yesterday" = false →
      searchDMY (pyStrip (lower s)).data = some (d, m, y) →
      (validDate y m d = true →
        parse_listing_age now (some s) =
          some (((toOrdinal now.y now.m now.d : Int) - (toOrdinal y m d : Int) : Int) : Rat)) ∧
      (validDate y m d = false → parse_listing_age now (some s) = none)) ∧
    (∀ s : String,
      containsStr (pyStrip (lower s)) "today" = false →
      containsStr (pyStrip (lower s)) "yesterday" = false →
      searchDMY (pyStrip (lower s)).data = none →
      parse_listing_age now (some s) = none) ∧
    parse_listing_age ⟨2025, 1, 10⟩ (some "Added on 05/01/2025") = some 5 ∧
    parse_listing_age ⟨2025, 2, 1⟩ (some "Added on 32/01/2025") = none := by
  refine ⟨rfl, ?_, ?_, ?_, ?_, by decide, by decide⟩
  · intro s hne h1
    simp [parse_listing_age, hne, normAge, h1]
  · intro s hne h1 h2
    simp [parse_listing_age, hne, normAge, h1, h2]
  · intro s d m y hne h1 h2 h3
    constructor
    · intro hv
      simp [parse_listing_age, hne, normAge, h1, h2, h3, hv]
    · intro hv
      simp [parse_listing_age, hne, normAge, h1, h2, h3, hv]
  · intro s h1 h2 h3
    by_cases hs : s = ""
    · simp [parse_listing_age, hs]
    · simp [parse_listing_age, hs, normAge, h1, h2, h3]

/-- Witness for C2: the date rule applied concretely, seven days before
2025-01-10. -/
theorem C2_parse_listing_age_rules_witness :
    parse_listing_age ⟨2025, 1, 10⟩ (some "Reduced on 03/01/2025") = some 7 := by
  have h := ((C2_parse_listing_age_rules ⟨2025, 1, 10⟩).2.2.2.1 "Reduced on 03/01/2025" 3 1 2025
    (by decide) (by decide) (by decide) (by decide)).1 (by decide)
  exact h.trans (by decide)

/-- C3: the Recency Filter with an absent threshold returns the input
unchanged; with a present threshold it keeps exactly the records whose
resolved age is absent or at most the threshold, dropping the rest and
preserving the order of survivors.  Concretely, with threshold 1.0 records of
age 0.0, 1.0 and unknown are kept and a record of age 2.0 is dropped. -/
theorem C3_filter_recent_listings (now : Date) (l : List PropertyRecord) :
    filter_recent_listings now l none = l ∧
    (∀ m : Rat, filter_recent_listings now l (some m) = l.filter (keepRecent now m)) ∧
    (∀ m : Rat, ∀ r : PropertyRecord,
      r ∈ filter_recent_listings now l (some m) ↔
        r ∈ l ∧ (parse_listing_age now r.date_listed = none ∨
          ∃ a : Rat, parse_listing_age now r.date_listed = some a ∧ a ≤ m)) ∧
    (∀ m : Rat, List.Sublist (filter_recent_listings now l (some m)) l) ∧
    filter_recent_listings ⟨2025, 1, 10⟩ [recToday, recYesterday, recUnknown, recOld] (some 1)
      = [recToday, recYesterday, recUnknown] := by
  refine ⟨rfl, fun m => rfl, ?_, fun m => List.filter_sublist l, by decide⟩
  intro m r
  show r ∈ l.filter (keepRecent now m) ↔ _
  rw [List.mem_filter]
  constructor
  · rintro ⟨hr, hk⟩
    refine ⟨hr, ?_⟩
    revert hk
    cases h : parse_listing_age now r.date_listed with
    | none => exact fun _ => Or.inl rfl
    | some a =>
      intro hk
      refine Or.inr ⟨a, rfl, ?_⟩
      simpa [keepRecent, h] using hk
  · rintro ⟨hr, hk⟩
    refine ⟨hr, ?_⟩
    rcases hk with h | ⟨a, ha, ham⟩
    · simp [keepRecent, h]
    · simp [keepRecent, ha, ham]

/-- C6: for a text whose first pound-prefixed digit-or-comma run holds at
least one digit, the Price Resolver returns the integer left after stripping
the commas ("£12,345" resolves to 12345); a text with no such run resolves to
absent, never zero ("Price on application", "POA"). -/
theorem C6_price_resolver (t : String) :
    (priceRunSearch (pyStrip t).data = none → parsePriceField t = Except.ok none) ∧
    (∀ run : List Char, priceRunSearch (pyStrip t).data = some run →
      ((run.filter Char.isDigit).isEmpty = false →
        parsePriceField t = Except.ok (some (digitsVal (run.filter Char.isDigit)))) ∧
      ((run.filter Char.isDigit).isEmpty = true → parsePriceField t = Except.error ())) ∧
    parsePriceField "£12,345" = Except.ok (some 12345) ∧
    parsePriceField "Price on application" = Except.ok none ∧
    parsePriceField "POA" = Except.ok none := by
  refine ⟨?_, ?_, by decide, by decide, by decide⟩
  · intro h
    simp [parsePriceField, h]
  · intro run h
    constructor
    · intro hd
      simp [parsePriceField, h, hd]
    · intro hd
      simp [parsePriceField, h, hd]

/-- Witness for C6: the digit-run rule applied to "£12,345". -/
theorem C6_price_resolver_witness :
    parsePriceField "£12,345" = Except.ok (some 12345) := by
  have h := (((C6_price_resolver "£12,345").2.1
    ['1', '2', ',', '3', '4', '5'] (by decide)).1 (by decide))
  exact h.trans (by decide)

/-- C6 counterexample: the Price Resolver does throw.  On "£," the regex
group is a lone comma, `int` receives the empty string and raises
`ValueError`, which escapes `extract_prices_new_structure` in `src/main.py`. -/
theorem C6_price_resolver_cex :
    parsePriceField "£," = Except.error () ∧
    extract_prices_new_structure ⟨["£,"], [], []⟩ = Except.error () := by decide

/-- C8: the Field Extractor yields absent for a card without a (truthy)
detail link, and every record it produces carries a present `listing_url`,
namely the base URL prepended to the href of the link. -/
theorem C8_listing_url_required :
    (∀ c : Card, c.href = none → extract_card_data c = none) ∧
    (∀ c : Card, c.href = some "" → extract_card_data c = none) ∧
    (∀ c : Card, ∀ r : PropertyRecord, extract_card_data c = some r →
      ∃ h : String, c.href = some h ∧ h ≠ "" ∧ r.listing_url = some (BASE_URL ++ h)) := by
  refine ⟨?_, ?_, ?_⟩
  · intro c h
    simp [extract_card_data, extractBody, h]
  · intro c h
    simp [extract_card_data, extractBody, h]
  · intro c r hcr
    cases hh : c.href with
    | none => simp [extract_card_data, extractBody, hh] at hcr
    | some h =>
      by_cases he : h = ""
      · simp [extract_card_data, extractBody, hh, he] at hcr
      · refine ⟨h, rfl, he, ?_⟩
        rw [extract_card_data] at hcr
        simp only [extractBody, hh] at hcr
        rw [if_neg he] at hcr
        cases hp : fieldPrice c.priceText with
        | error e => simp [hp, Except.bind] at hcr
        | ok price =>
          cases hb : fieldInt c.bedroomsText with
          | error e => simp [hp, hb, Except.bind] at hcr
          | ok beds =>
            cases hba : fieldInt (bathText c.bathContainer) with
            | error e => simp [hp, hb, hba, Except.bind] at hcr
            | ok baths =>
              simp [hp, hb, hba, Except.bind] at hcr
              rw [← hcr]

/-- Witness for C8: the empty-href rule and the produced-record rule applied
to concrete cards. -/
theorem C8_listing_url_required_witness :
    extract_card_data (bareCard "") = none ∧
    ∃ h : String, fullCard.href = some h ∧ h ≠ "" ∧
      fullRec.listing_url = some (BASE_URL ++ h) :=
  ⟨C8_listing_url_required.2.1 (bareCard "") rfl,
    C8_listing_url_required.2.2 fullCard fullRec (by decide)⟩

/-- C1 counterexample: a card with a detail link whose only defect is
non-numeric bedrooms text yields absent for the whole card, not a record with
`bedrooms` absent. -/
theorem C1_whole_card_absent_cex :
    ({ fullCard with bedroomsText := some "two" } : Card).href = some "/properties/123456" ∧
    extract_card_data { fullCard with bedroomsText := some "two" } = none := by decide

/-- C1 (amended): for a card with a detail link, a missing sub-element or an
unmatched pattern leaves only that field absent on the produced record, but an
unexpected error while extracting a field (non-numeric bedrooms or bathrooms
text reaching `int`, or a pound match whose group has no digit) makes the
whole card yield absent rather than a partial record; extraction never raises
to its caller (it is a total function into `Option`). -/
theorem C1_extraction_failure_scope :
    (∀ c : Card, ∀ h : String, c.href = some h → h ≠ "" → cardThrows c = false →
      (extract_card_data c).isSome = true) ∧
    (∀ c : Card, cardThrows c = true → extract_card_data c = none) ∧
    extract_card_data { fullCard with priceText := none } = some { fullRec with price := none } ∧
    extract_card_data { fullCard with bathContainer := some none } =
      some { fullRec with bathrooms := none } ∧
    extract_card_data { fullCard with priceText := some "POA" } =
      some { fullRec with price := none } := by
  refine ⟨?_, ?_, by decide, by decide, by decide⟩
  · intro c h hh hne hth
    rw [cardThrows] at hth
    simp only [Bool.or_eq_false_iff] at hth
    obtain ⟨⟨hp, hb⟩, hba⟩ := hth
    rw [extract_card_data]
    simp only [extractBody, hh]
    rw [if_neg hne]
    cases hp2 : fieldPrice c.priceText with
    | error e => rw [hp2] at hp; simp [isErr] at hp
    | ok price =>
      cases hb2 : fieldInt c.bedroomsText with
      | error e => rw [hb2] at hb; simp [isErr] at hb
      | ok beds =>
        cases hba2 : fieldInt (bathText c.bathContainer) with
        | error e => rw [hba2] at hba; simp [isErr] at hba
        | ok baths => simp [hp2, hb2, hba2, Except.bind]
  · intro c hth
    cases hh : c.href with
    | none => simp [extract_card_data, extractBody, hh]
    | some h =>
      by_cases hne : h = ""
      · simp [extract_card_data, extractBody, hh, hne]
      · rw [extract_card_data]
        simp only [extractBody, hh]
        rw [if_neg hne]
        cases hp2 : fieldPrice c.priceText with
        | error e => simp [hp2, Except.bind]
        | ok price =>
          cases hb2 : fieldInt c.bedroomsText with
          | error e => simp [hp2, hb2, Except.bind]
          | ok beds =>
            cases hba2 : fieldInt (bathText c.bathContainer) with
            | error e => simp [hp2, hb2, hba2, Except.bind]
            | ok baths =>
              rw [cardThrows, hp2, hb2, hba2] at hth
              simp [isErr] at hth

/-- Witness for C1: the benign case applied to the full concrete card. -/
theorem C1_extraction_failure_scope_witness :
    (extract_card_data fullCard).isSome = true :=
  C1_extraction_failure_scope.1 fullCard "/properties/123456" (by decide) (by decide) (by decide)

/-- C4 counterexample: two distinct records both lacking `property_id` are
merged by the Deduplicator — only the later one survives — because pandas
`drop_duplicates` groups `NaN` keys together; the claim says they are each
retained independently. -/
theorem C4_absent_ids_merged_cex :
    recNoId1.property_id = none ∧ recNoId2.property_id = none ∧ recNoId1 ≠ recNoId2 ∧
    deduplicate_csv [] [recNoId1, recNoId2] = [recNoId2] := by decide

theorem dropDupLast_filter_key (k : Option String) (l : List PropertyRecord) :
    (dropDupLast l).filter (fun r => r.property_id == k)
      = ((l.filter (fun r => r.property_id == k)).getLast?).toList := by
  induction l with
  | nil => rfl
  | cons r rs ih =>
    rw [dropDupLast]
    by_cases hdup : rs.any (fun x => x.property_id == r.property_id) = true
    · rw [if_pos hdup]
      cases hk : (r.property_id == k) with
      | false => simpa [List.filter_cons, hk] using ih
      | true =>
        have hrk : r.property_id = k := by simpa using hk
        obtain ⟨x, hx, hxk⟩ : ∃ x ∈ rs, (x.property_id == r.property_id) = true := by
          simpa using hdup
        have hxmem : x ∈ rs.filter (fun r2 => r2.property_id == k) := by
          rw [List.mem_filter]
          exact ⟨hx, by rw [← hrk]; exact hxk⟩
        have hne : rs.filter (fun r2 => r2.property_id == k) ≠ [] := by
          intro h0
          rw [h0] at hxmem
          exact List.not_mem_nil x hxmem
        have hcons : (r :: rs).filter (fun r2 => r2.property_id == k)
            = r :: rs.filter (fun r2 => r2.property_id == k) := by
          simp [List.filter_cons, hk]
        rw [ih, hcons, getLast?_cons_of_ne_nil _ hne]
    · rw [if_neg hdup]
      cases hk : (r.property_id == k) with
      | false =>
        have h1 : (r :: dropDupLast rs).filter (fun r2 => r2.property_id == k)
            = (dropDupLast rs).filter (fun r2 => r2.property_id == k) := by
          simp [List.filter_cons, hk]
        have h2 : (r :: rs).filter (fun r2 => r2.property_id == k)
            = rs.filter (fun r2 => r2.property_id == k) := by
          simp [List.filter_cons, hk]
        rw [h1, h2]
        exact ih
      | true =>
        have hrk : r.property_id = k := by simpa using hk
        have hfil : rs.filter (fun r2 => r2.property_id == k) = [] := by
          rw [List.filter_eq_nil_iff]
          intro x hx hxk
          apply hdup
          simp only [List.any_eq_true]
          exact ⟨x, hx, by rw [hrk]; exact hxk⟩
        have h1 : (r :: dropDupLast rs).filter (fun r2 => r2.property_id == k)
            = r :: (dropDupLast rs).filter (fun r2 => r2.property_id == k) := by
          simp [List.filter_cons, hk]
        have h2 : (r :: rs).filter (fun r2 => r2.property_id == k)
            = r :: rs.filter (fun r2 => r2.property_id == k) := by
          simp [List.filter_cons, hk]
        rw [h1, h2, ih, hfil]
        rfl

theorem dropDupLast_sublist (l : List PropertyRecord) :
    List.Sublist (dropDupLast l) l := by
  induction l with
  | nil => exact List.Sublist.refl []
  | cons r rs ih =>
    rw [dropDupLast]
    by_cases h : rs.any (fun x => x.property_id == r.property_id) = true
    · rw [if_pos h]
      exact ih.trans (List.sublist_cons_self r rs)
    · rw [if_neg h]
      exact ih.cons₂ r

/-- C4 (amended): over the concatenation of existing then incoming records,
the Deduplicator retains, for each `property_id` key including the absent
one, exactly the last-seen record with that key (pandas groups the `NaN`
keys of the rows lacking an id, so absent-id records are merged too, keeping
only the last); output order is a subsequence of the input.  The spec's
concrete example holds: merging existing id "1" price 100 with incoming id
"1" price 200 and id "2" price 300 yields exactly those two incoming
records. -/
theorem C4_last_seen_wins (existing incoming : List PropertyRecord) :
    (∀ k : Option String,
      (deduplicate_csv existing incoming).filter (fun r => r.property_id == k)
        = (((existing ++ incoming).filter (fun r => r.property_id == k)).getLast?).toList) ∧
    List.Sublist (deduplicate_csv existing incoming) (existing ++ incoming) ∧
    deduplicate_csv [recId1a] [recId1b, recId2] = [recId1b, recId2] :=
  ⟨fun k => dropDupLast_filter_key k (existing ++ incoming),
    dropDupLast_sublist (existing ++ incoming), by decide⟩

/-- C7 counterexample: a record entering enrichment with a populated
`area_sqft` of 500 and a populated `leasehold` of `true` leaves with 726 and
`false` when the detail page carries a 726 sq ft size paragraph and a
freehold tenure paragraph: the enricher overwrites both populated fields. -/
theorem C7_overwrites_cex :
    recAreaTenure.area_sqft = some 500 ∧ recAreaTenure.leasehold = some true ∧
    (enrichOne fetchBoth recAreaTenure).area_sqft = some 726 ∧
    (enrichOne fetchBoth recAreaTenure).leasehold = some false := by decide

/-- C7 (amended): the Detail Enricher returns the record unchanged when the
record has no (truthy) detail URL, when the detail fetch fails, or when the
detail page yields neither size nor tenure; but an extracted area is assigned
to `area_sqft` unconditionally, and an extracted tenure paragraph is assigned
to `leasehold` unconditionally — populated values are overwritten, not
preserved.  With enrichment disabled the batch is returned unchanged. -/
theorem C7_enrichment_behaviour (fetch : String → Except Unit Detail) (r : PropertyRecord) :
    (r.listing_url = none → enrichOne fetch r = r) ∧
    (∀ u : String, r.listing_url = some u → u ≠ "" → fetch u = Except.error () →
      enrichOne fetch r = r) ∧
    (∀ u t : String, ∀ n : Nat, r.listing_url = some u → u ≠ "" →
      fetch u = Except.ok ⟨some t, none⟩ → parseAreaField t = Except.ok (some n) →
      enrichOne fetch r = { r with area_sqft := some n }) ∧
    (∀ u : String, r.listing_url = some u → u ≠ "" →
      fetch u = Except.ok ⟨none, none⟩ → enrichOne fetch r = r) ∧
    (∀ u t : String, r.listing_url = some u → u ≠ "" →
      fetch u = Except.ok ⟨none, some t⟩ →
      enrichOne fetch r = { r with leasehold := some (containsStr (lower (pyStrip t)) "leasehold") }) ∧
    (∀ u ts t : String, ∀ n : Nat, r.listing_url = some u → u ≠ "" →
      fetch u = Except.ok ⟨some ts, some t⟩ → parseAreaField ts = Except.ok (some n) →
      enrichOne fetch r =
        { r with area_sqft := some n,
                 leasehold := some (containsStr (lower (pyStrip t)) "leasehold") }) ∧
    (∀ props : List PropertyRecord, enrich_property_details fetch props false = props) := by
  refine ⟨?_, ?_, ?_, ?_, ?_, ?_, fun props => rfl⟩
  · intro hu
    simp [enrichOne, hu]
  · intro u hu hne hf
    simp only [enrichOne, hu]
    rw [if_neg hne, hf]
  · intro u t n hu hne hf hp
    simp only [enrichOne, hu]
    rw [if_neg hne, hf]
    simp [hp]
  · intro u hu hne hf
    simp only [enrichOne, hu]
    rw [if_neg hne, hf]
  · intro u t hu hne hf
    simp only [enrichOne, hu]
    rw [if_neg hne, hf]
    simp [hu]
  · intro u ts t n hu hne hf hp
    simp only [enrichOne, hu]
    rw [if_neg hne, hf]
    simp [hp]

/-- Witness for C7: the fetch-failure case applied to a concrete record. -/
theorem C7_enrichment_behaviour_witness :
    enrichOne fetchFail recArea500 = recArea500 :=
  (C7_enrichment_behaviour fetchFail recArea500).2.1
    "https://www.rightmove.co.uk/properties/7" rfl (by decide) rfl

theorem searchFrom_pages (fetch : Nat → Except Unit (List Card)) :
    ∀ fuel page : Nat, ∃ m : Nat, m ≤ fuel ∧
      (searchFrom fetch fuel page).2 = List.range' page m := by
  intro fuel
  induction fuel with
  | zero => exact fun page => ⟨0, Nat.le_refl 0, rfl⟩
  | succ n ih =>
    intro page
    cases hf : fetch page with
    | error e =>
      refine ⟨1, by omega, ?_⟩
      simp [searchFrom, hf, List.range'_one]
    | ok cards =>
      by_cases hc : cards.isEmpty = true
      · refine ⟨1, by omega, ?_⟩
        simp [searchFrom, hf, hc, List.range'_one]
      · obtain ⟨m, hm, hsnd⟩ := ih (page + 1)
        refine ⟨m + 1, by omega, ?_⟩
        simp [searchFrom, hf, hc, hsnd, List.range'_succ]

/-- C5: the Pagination Driver visits page indices increasingly from 0 while
below `max_pages`; a fetch error stops pagination, returning what was
accumulated, as does a page whose soup contains zero cards.  Concretely, with
`max_pages = 5` and zero cards on the third page, the result holds only the
records of the first two pages and pages 3 and 4 (0-based) are never
fetched. -/
theorem C5_pagination_driver (fetch : Nat → Except Unit (List Card)) (n : Nat) :
    (∃ m : Nat, m ≤ n ∧ (search_properties fetch n).2 = List.range m) ∧
    (∀ fuel page : Nat, fetch page = Except.error () →
      searchFrom fetch (fuel + 1) page = ([], [page])) ∧
    (∀ fuel page : Nat, fetch page = Except.ok [] →
      searchFrom fetch (fuel + 1) page = ([], [page])) ∧
    search_properties fetchEmptyPage3 5 = ([rec11, rec22], [0, 1, 2]) ∧
    search_properties fetchErrPage2 5 = ([rec11], [0, 1]) := by
  refine ⟨?_, ?_, ?_, by decide, by decide⟩
  · obtain ⟨m, hm, hsnd⟩ := searchFrom_pages fetch n 0
    exact ⟨m, hm, by rw [search_properties, hsnd, ← List.range_eq_range']⟩
  · intro fuel page hf
    simp [searchFrom, hf]
  · intro fuel page hf
    simp [searchFrom, hf]

/-- Witness for C5: the zero-cards stop rule applied at page 2 of the
concrete fetcher. -/
theorem C5_pagination_driver_witness :
    searchFrom fetchEmptyPage3 (2 + 1) 2 = ([], [2]) :=
  (C5_pagination_driver fetchEmptyPage3 5).2.2.1 2 2 (by decide)

/-- C9 counterexample: an overwrite of the persisted file that fails after
the header and the first of two rows leaves the file in a state that is
neither the prior contents nor the full new contents — the write is not
all-or-nothing. -/
theorem C9_partial_write_cex :
    [HEADER, "a"] ∈ save_states oldFile false ["a", "b"] ∧
    [HEADER, "a"] ≠ oldFile.lines ∧
    [HEADER, "a"] ≠ save_final oldFile false ["a", "b"] := by decide

/-- C9 (amended): a failed `save_to_csv` write is not all-or-nothing with
respect to the prior file state: the file is truncated at open (in overwrite
mode) and lines are appended one at a time, so a failure leaves the opened
base followed by some prefix of the pending lines — in overwrite mode a bare
prefix of the new content, the old content being already lost.  Only an empty
batch leaves the file untouched. -/
theorem C9_write_not_atomic (file : CsvFile) (append : Bool) (rows : List String) :
    (∀ s : List String, s ∈ save_states file append rows →
      s = file.lines ∨
        ∃ k : Nat, s = saveBase file append ++ (saveWrites file append rows).take k) ∧
    save_final file append rows ∈ save_states file append rows ∧
    save_states file append [] = [file.lines] := by
  refine ⟨?_, ?_, rfl⟩
  · intro s hs
    by_cases hr : rows.isEmpty = true
    · left
      rw [save_states, if_pos hr] at hs
      simpa using hs
    · right
      rw [save_states, if_neg hr] at hs
      simp only [List.mem_map, List.mem_range] at hs
      obtain ⟨k, _, hk⟩ := hs
      exact ⟨k, hk.symm⟩
  · by_cases hr : rows.isEmpty = true
    · have : rows = [] := by simpa using hr
      rw [save_final, save_states, this]
      simp
    · rw [save_final, save_states, if_neg hr, if_neg hr]
      simp only [List.mem_map, List.mem_range]
      exact ⟨(saveWrites file append rows).length, by omega,
        by rw [List.take_length]⟩

/-- Witness for C9: the prefix characterization applied to the concrete
partial state. -/
theorem C9_write_not_atomic_witness :
    [HEADER, "a"] = oldFile.lines ∨
      ∃ k : Nat, [HEADER, "a"] = saveBase oldFile false ++ (saveWrites oldFile false ["a", "b"]).take k :=
  (C9_write_not_atomic oldFile false ["a", "b"]).1 [HEADER, "a"] (by decide)

theorem avgLoop_past_first (fetch : Nat → Option PriceDoc) :
    ∀ fuel page : Nat, ∀ acc : List Nat, 1 ≤ page →
      ∃ vs : List Nat, avgLoop fetch fuel page acc = Except.ok (acc, vs) := by
  intro fuel
  induction fuel with
  | zero => exact fun page acc _ => ⟨[], rfl⟩
  | succ n ih =>
    intro page acc hp
    cases hf : fetch page with
    | none => exact ⟨[page], by simp [avgLoop, hf]⟩
    | some doc =>
      have hp0 : page ≠ 0 := by omega
      obtain ⟨vs, hvs⟩ := ih (page + 1) acc (by omega)
      exact ⟨page :: vs, by simp [avgLoop, hf, hp0, hvs, Except.bind]⟩

theorem avgLoop_past_first_all (fetch : Nat → Option PriceDoc) :
    ∀ fuel page : Nat, ∀ acc : List Nat, 1 ≤ page →
      (∀ q : Nat, page ≤ q → q < page + fuel → fetch q ≠ none) →
      avgLoop fetch fuel page acc = Except.ok (acc, List.range' page fuel) := by
  intro fuel
  induction fuel with
  | zero => exact fun page acc _ _ => rfl
  | succ n ih =>
    intro page acc hp hall
    have hne : fetch page ≠ none := hall page (Nat.le_refl page) (by omega)
    cases hf : fetch page with
    | none => exact absurd hf hne
    | some doc =>
      have hp0 : page ≠ 0 := by omega
      have hrec := ih (page + 1) acc (by omega)
        (fun q hq1 hq2 => hall q (by omega) (by omega))
      simp [avgLoop, hf, hp0, hrec, Except.bind, List.range'_succ]

/-- C10: `get_avg_price` parses and accumulates prices only inside its
first-page branch: whenever page 0 fetches successfully and yields a nonempty
price list, the returned average and count are those of the first page alone,
whatever the later pages hold, and with all fetches succeeding the loop still
fetches every page index below `max_pages` without contributing prices.
Whenever the first page yields no prices (or fails to fetch), the result is
`(None, 0)`. -/
theorem C10_first_page_only :
    (∀ fetch : Nat → Option PriceDoc, ∀ n : Nat, ∀ d : PriceDoc, ∀ ps : List Nat,
      1 ≤ n → fetch 0 = some d → extract_prices_new_structure d = Except.ok ps →
      ps ≠ [] →
      ∃ vs : List Nat, get_avg_price fetch n = Except.ok ((some (pymean ps), ps.length), vs)) ∧
    (∀ fetch : Nat → Option PriceDoc, ∀ n : Nat, ∀ d : PriceDoc,
      1 ≤ n → fetch 0 = some d → extract_prices_new_structure d = Except.ok [] →
      get_avg_price fetch n = Except.ok ((none, 0), [0])) ∧
    (∀ fetch : Nat → Option PriceDoc, ∀ n : Nat, 1 ≤ n → fetch 0 = none →
      get_avg_price fetch n = Except.ok ((none, 0), [0])) ∧
    (∀ fetch : Nat → Option PriceDoc, ∀ n : Nat, ∀ d : PriceDoc, ∀ ps : List Nat,
      1 ≤ n → fetch 0 = some d → extract_prices_new_structure d = Except.ok ps →
      ps ≠ [] → (∀ p : Nat, p < n → fetch p ≠ none) →
      get_avg_price fetch n = Except.ok ((some (pymean ps), ps.length), List.range n)) ∧
    (get_avg_price fetchPrices 3 = Except.ok ((some (pymean [100, 200]), 2), [0, 1, 2]) ∧
      pymean [100, 200] = 150) := by
  refine ⟨?_, ?_, ?_, ?_, rfl, by norm_num [pymean, List.foldl]⟩
  · intro fetch n d ps hn hf he hps
    obtain ⟨k, rfl⟩ : ∃ k : Nat, n = k + 1 := ⟨n - 1, by omega⟩
    have hpse : ps.isEmpty = false := by
      cases ps with
      | nil => exact absurd rfl hps
      | cons a l => rfl
    obtain ⟨vs, hvs⟩ := avgLoop_past_first fetch k 1 ps (Nat.le_refl 1)
    refine ⟨0 :: vs, ?_⟩
    rw [get_avg_price]
    simp [avgLoop, hf, he, hpse, hps, hvs, Except.bind]
  · intro fetch n d hn hf he
    obtain ⟨k, rfl⟩ : ∃ k : Nat, n = k + 1 := ⟨n - 1, by omega⟩
    rw [get_avg_price]
    simp [avgLoop, hf, he, Except.bind]
  · intro fetch n hn hf
    obtain ⟨k, rfl⟩ : ∃ k : Nat, n = k + 1 := ⟨n - 1, by omega⟩
    rw [get_avg_price]
    simp [avgLoop, hf, Except.bind]
  · intro fetch n d ps hn hf he hps hall
    obtain ⟨k, rfl⟩ : ∃ k : Nat, n = k + 1 := ⟨n - 1, by omega⟩
    have hpse : ps.isEmpty = false := by
      cases ps with
      | nil => exact absurd rfl hps
      | cons a l => rfl
    have hrec := avgLoop_past_first_all fetch k 1 ps (Nat.le_refl 1)
      (fun q hq1 hq2 => hall q (by omega))
    rw [get_avg_price]
    have hrange : List.range (k + 1) = (0 : Nat) :: List.range' 1 k := by
      rw [List.range_eq_range', List.range'_succ]
    simp [avgLoop, hf, he, hpse, hps, hrec, Except.bind, hrange]

/-- Witness for C10: the no-first-page-prices rule applied to a fetcher whose
first page fails. -/
theorem C10_first_page_only_witness :
    get_avg_price (fun _ => none) 1 = Except.ok ((none, 0), [0]) :=
  C10_first_page_only.2.2.1 (fun _ => none) 1 (Nat.le_refl 1) rfl

end Rightmove
